import Mathlib

/-!
Verification of the dispatch and rendering pipeline of `pkg/notify/email.go`
(the email notifier of the notification-manager repository).  The Go source is
shallowly embedded: `getSubject` (subject synthesis), `Clone` (config
cloning), `NewEmailNotifier` (construction) and `Notify` (the dispatch loop)
become executable Lean functions over explicit data; Go map iteration order is
made explicit as an association-list order, and the in-place mutation of the
notifier's shared config is made explicit by threading the config value
through the loop.  Heap aliasing of config structs, where a claim is about
aliasing, is modelled by a small store of config cells addressed by index.
-/

namespace NotifyEmail

/-- Go type `template.KV`, a `map[string]string`.  A Go map is unordered; we
represent one concrete iteration order as an association list with unique
keys, so that facts depending on iteration order are statable (two permuted
lists denote the same map). -/
abbrev KV := List (String × String)

/-- Go map read with the zero-value default: `m[k]` yields `""` when `k` is
absent. -/
def kvGet (kv : KV) (k : String) : String :=
  match kv.find? (fun p => p.1 == k) with
  | some p => p.2
  | none => ""

/-- Go map write `m[k] = v`: replaces the binding of `k` if present, otherwise
appends it. -/
def kvSet : KV → String → String → KV
  | [], k, v => [(k, v)]
  | p :: rest, k, v => if p.1 == k then (k, v) :: rest else p :: kvSet rest k v

/-- Go `strings.TrimSuffix s suffix`: drops `suffix` from the end of `s` when
present, otherwise returns `s` unchanged (written over the underlying
character list so that it evaluates by reduction). -/
def trimSuffix (s suffix : String) : String :=
  if suffix.data.isSuffixOf s.data then
    String.mk (s.data.take (s.data.length - suffix.data.length))
  else s

/-- Embedding of `template.Alert` (the fields `email.go` reads): status,
label set, annotation set, start/end times (as integral timestamps) and the
generator URL. -/
structure Alert where
  status : String
  labels : KV
  annots : KV
  startsAt : Int
  endsAt : Int
  generatorURL : String
  deriving Repr, DecidableEq

/-- Method `Alerts.Firing()` of the template package: the alerts whose status
is the string `"firing"`. -/
def firingOf (alerts : List Alert) : List Alert :=
  alerts.filter (fun a => a.status == "firing")

/-- Method `Alerts.Resolved()` of the template package: the alerts whose
status is the string `"resolved"`. -/
def resolvedOf (alerts : List Alert) : List Alert :=
  alerts.filter (fun a => a.status == "resolved")

/-- Embedding of `template.Data`, one alert batch: receiver, status, the
alerts, and the group/common label and annotation maps plus the external
URL. -/
structure Data where
  receiver : String
  status : String
  alerts : List Alert
  groupLabels : KV
  commonLabels : KV
  commonAnnots : KV
  externalURL : String
  deriving Repr, DecidableEq

/-- Embedding of `(en *EmailNotifier) getSubject(data template.Data)`.  The
`range` over `data.CommonLabels` is embedded as a fold over the
association list in its list order, which is one concrete iteration order of
the unordered Go map. -/
def getSubject (d : Data) : String :=
  let subject := ""
  let ns := kvGet d.commonLabels "namespace"
  let alertname := kvGet d.commonLabels "alertname"
  let firingNum := (firingOf d.alerts).length
  let subject := if firingNum > 0 then "[FIRING:" ++ toString firingNum ++ "] " else subject
  let resolvedNum := (resolvedOf d.alerts).length
  let subject :=
    if resolvedNum > 0 then subject ++ "[RESOLVED:" ++ toString resolvedNum ++ "] "
    else subject
  let subject := if ns.length > 0 then subject ++ " " ++ ns else subject
  let subject :=
    if alertname.length > 0 then
      if ns.length > 0 then subject ++ "/" ++ alertname
      else subject ++ alertname
    else subject
  let labels := d.commonLabels.foldl
    (fun acc p =>
      if p.1 == "namespace" || p.1 == "alertname" then acc
      else acc ++ p.1 ++ "=" ++ p.2 ++ ",") ""
  if labels.length > 0 then subject ++ " (" ++ trimSuffix labels "," ++ ")"
  else subject

/-- Embedding of `config.EmailConfig` (with `config.NotifierConfig` flattened
to its single `VSendResolved` field).  The `Headers` map is a Go map that may
be `nil`, so it is an `Option KV` here (`none` is the nil map).  The
`RequireTLS` pointer and the opaque `TLSConfig` are carried as plain values:
`Clone` copies the former into a fresh cell (`&(*ec.RequireTLS)`) and shares
the latter. -/
structure EmailConfig where
  VSendResolved : Bool
  To : String
  From : String
  Hello : String
  Smarthost : String
  AuthUsername : String
  AuthPassword : String
  AuthSecret : String
  AuthIdentity : String
  Headers : Option KV
  HTML : String
  Text : String
  RequireTLS : Bool
  TLSConfig : String
  deriving Repr, DecidableEq

/-- Field copy performed by the struct literal inside
`(en *EmailNotifier) Clone(ec *config.EmailConfig)`: a fresh `EmailConfig`
with `NotifierConfig` zeroed, `To` emptied, `Headers` nil, and the remaining
fields taken from the base. -/
def cloneFields (ec : EmailConfig) : EmailConfig :=
  { VSendResolved := false
    To := ""
    From := ec.From
    Hello := ec.Hello
    Smarthost := ec.Smarthost
    AuthUsername := ec.AuthUsername
    AuthPassword := ec.AuthPassword
    AuthSecret := ec.AuthSecret
    AuthIdentity := ec.AuthIdentity
    Headers := none
    HTML := ec.HTML
    Text := ec.Text
    RequireTLS := ec.RequireTLS
    TLSConfig := ec.TLSConfig }

/-- Embedding of `Clone`: `nil` in, `nil` out; otherwise a pointer to a fresh
struct holding `cloneFields` of the base. -/
def Clone : Option EmailConfig → Option EmailConfig
  | none => none
  | some ec => some (cloneFields ec)

/-- Embedding of `notifyconfig.Email`, the receiver value the factory
expects: destination addresses plus a (possibly nil) base email config. -/
structure EmailReceiver where
  To : List String
  emailConfig : Option EmailConfig
  deriving Repr, DecidableEq

/-- The opaque `val interface\x7b\x7d` handed to the factory: either a
`*notifyconfig.Email` or a value of some other shape (the failed type
assertion). -/
inductive ReceiverVal where
  | email (r : EmailReceiver)
  | other
  deriving Repr, DecidableEq

/-- Embedding of `nmv1alpha1.Options` restricted to the chain the source
reads: `opts.NotificationTimeout.Email`, each link a possibly-nil pointer. -/
structure NotificationTimeout where
  Email : Option Int
  deriving Repr, DecidableEq

structure Options where
  NotificationTimeout : Option NotificationTimeout
  deriving Repr, DecidableEq

/-- Durations are `time.Duration` values: integer nanoseconds. -/
def nanosPerSecond : Int := 1000000000

/-- Constant `DefaultSendTimeout = time.Second * 3`. -/
def DefaultSendTimeout : Int := 3 * nanosPerSecond

/-- The string literal assigned to `notifier.Config.HTML` by the factory. -/
def defaultHTMLTemplate : String := "\x7b\x7b template \"email.default.html\" . \x7d\x7d"

/-- Embedding of the `EmailNotifier` struct.  The `Config` pointer is
non-nil for every notifier the factory returns (the nil case returns early),
so it is carried as a plain `EmailConfig`; the template and logger are
external capabilities and carry no state the claims mention. -/
structure EmailNotifier where
  To : List String
  Config : EmailConfig
  Timeout : Int
  deriving Repr, DecidableEq

/-- Embedding of `NewEmailNotifier`.  `templateOk` stands for the success of
the external `template.FromGlobs()` call (template loading).  Returns `none`
exactly where the source returns a nil `Notifier`: wrong-shape receiver
value, nil config after cloning, or template failure.  On success the
returned notifier carries the default timeout unless the options chain
supplies an email timeout in seconds. -/
def NewEmailNotifier (val : ReceiverVal) (opts : Option Options)
    (templateOk : Bool) : Option EmailNotifier :=
  match val with
  | ReceiverVal.other => none
  | ReceiverVal.email receiver =>
    match Clone receiver.emailConfig with
    | none => none
    | some cfg0 =>
      let cfg1 := if cfg0.Headers.isNone then { cfg0 with Headers := some [] } else cfg0
      let cfg2 := { cfg1 with HTML := defaultHTMLTemplate }
      if templateOk then
        let timeout :=
          match opts with
          | some o =>
            match o.NotificationTimeout with
            | some nt =>
              match nt.Email with
              | some t => t * nanosPerSecond
              | none => DefaultSendTimeout
            | none => DefaultSendTimeout
          | none => DefaultSendTimeout
        some { To := receiver.To, Config := cfg2, Timeout := timeout }
      else none

/-- Embedding of the inner `sendEmail` loop of `Notify` for one batch: walks
the recipient list, overwrites the shared config's `To` with each recipient,
and attempts delivery through the external transport, abstracted as an
oracle `deliver : recipient → Option error` (`none` is success).  Returns the
config after the loop, the collected errors in recipient order, and the
number of delivery attempts made. -/
def dispatchRecipients (deliver : String → Option String) :
    EmailConfig → List String → EmailConfig × List String × Nat
  | cfg, [] => (cfg, [], 0)
  | cfg, addr :: rest =>
    let cfg1 := { cfg with To := addr }
    let res := dispatchRecipients deliver cfg1 rest
    match deliver addr with
    | some err => (res.1, err :: res.2.1, res.2.2 + 1)
    | none => (res.1, res.2.1, res.2.2 + 1)

/-- Embedding of `(en *EmailNotifier) Notify(data []template.Data)`.  For
each batch the subject is written into the shared config's header map
(`en.Config.Headers["Subject"] = en.getSubject(d)` — a write through a nil
map is a Go panic, embedded as `none`), then every recipient is attempted.
The transport is the oracle `deliver : batch → recipient → Option error`.
Returns the notifier after its config mutations, all collected errors in
order, and the total number of delivery attempts. -/
def Notify (deliver : Data → String → Option String) :
    EmailNotifier → List Data → Option (EmailNotifier × List String × Nat)
  | en, [] => some (en, [], 0)
  | en, d :: rest =>
    match en.Config.Headers with
    | none => none
    | some hs =>
      let cfg := { en.Config with Headers := some (kvSet hs "Subject" (getSubject d)) }
      let res := dispatchRecipients (deliver d) cfg en.To
      match Notify deliver { en with Config := res.1 } rest with
      | none => none
      | some (en', errs2, n2) => some (en', res.2.1 ++ errs2, res.2.2 + n2)

/-- Heap model for `*config.EmailConfig` pointers, used where a claim is
about aliasing: a store of config cells, a reference being an index into the
store. -/
structure ConfigStore where
  cells : List EmailConfig
  deriving Repr, DecidableEq

/-- Pointer dereference: `none` is a dangling or nil reference. -/
def readCfg (s : ConfigStore) (r : Nat) : Option EmailConfig :=
  s.cells[r]?

/-- Allocation of a fresh cell (`&config.EmailConfig\x7b...\x7d`): the new
reference is distinct from every live one. -/
def allocCfg (s : ConfigStore) (c : EmailConfig) : ConfigStore × Nat :=
  ({ cells := s.cells ++ [c] }, s.cells.length)

/-- In-place mutation of one cell's `To` field through a reference
(`cfg.To = v`).  A dangling reference leaves the store unchanged. -/
def writeTo (s : ConfigStore) (r : Nat) (v : String) : ConfigStore :=
  match s.cells[r]? with
  | none => s
  | some c => { cells := s.cells.set r { c with To := v } }

/-- Store-level embedding of `Clone`: reads the base reference and, unless it
is nil, allocates a fresh cell holding `cloneFields` of the base
(`Clone` returns a pointer to a brand-new struct literal). -/
def CloneRef (s : ConfigStore) (base : Option Nat) : ConfigStore × Option Nat :=
  match base with
  | none => (s, none)
  | some r =>
    match readCfg s r with
    | none => (s, none)
    | some ec =>
      let res := allocCfg s (cloneFields ec)
      (res.1, some res.2)

/-- The email notification timeout carried by the options chain, when every
link is present. -/
def optEmailTimeout (opts : Option Options) : Option Int :=
  (opts.bind (fun o => o.NotificationTimeout)).bind (fun nt => nt.Email)

/-- The per-delivery timeout the factory stores: the options-supplied value
in seconds when present, otherwise `DefaultSendTimeout`. -/
def timeoutOf (opts : Option Options) : Int :=
  match optEmailTimeout opts with
  | some t => t * nanosPerSecond
  | none => DefaultSendTimeout

/-- Inversion of a successful construction: the receiver value was an email
receiver with a non-nil base config, the template loaded, and the returned
notifier is the clone of the base with a fresh empty header map, the default
HTML template reference, and the timeout determined by the options. -/
theorem NewEmailNotifier_inv (val : ReceiverVal) (opts : Option Options)
    (tOk : Bool) (en : EmailNotifier)
    (h : NewEmailNotifier val opts tOk = some en) :
    ∃ r base, val = ReceiverVal.email r ∧ r.emailConfig = some base ∧ tOk = true ∧
      en = { To := r.To
             Config := { cloneFields base with Headers := some [], HTML := defaultHTMLTemplate }
             Timeout := timeoutOf opts } := by
  cases val with
  | other => simp [NewEmailNotifier] at h
  | email r =>
    cases hrc : r.emailConfig with
    | none => simp [NewEmailNotifier, Clone, hrc] at h
    | some base =>
      cases tOk with
      | false => simp [NewEmailNotifier, Clone, hrc] at h
      | true =>
        refine ⟨r, base, rfl, hrc, rfl, ?_⟩
        simp only [NewEmailNotifier, Clone, hrc, cloneFields] at h
        simp only [Option.isNone_none, if_true] at h
        injection h with h
        subst h
        cases opts with
        | none => simp [timeoutOf, optEmailTimeout, cloneFields]
        | some o =>
          cases hnt : o.NotificationTimeout with
          | none => simp [timeoutOf, optEmailTimeout, hnt, cloneFields]
          | some nt =>
            cases he : nt.Email with
            | none => simp [timeoutOf, optEmailTimeout, hnt, he, cloneFields]
            | some t => simp [timeoutOf, optEmailTimeout, hnt, he, cloneFields]

/-- Number of delivery failures the oracle yields across all batches and
recipients: the failing recipients of each batch, summed over the batches. -/
def countFailures (deliver : Data → String → Option String) (tos : List String) :
    List Data → Nat
  | [] => 0
  | d :: rest => (tos.filter (fun t => (deliver d t).isSome)).length +
      countFailures deliver tos rest

theorem dispatchRecipients_attempts (deliver : String → Option String)
    (cfg : EmailConfig) (tos : List String) :
    (dispatchRecipients deliver cfg tos).2.2 = tos.length := by
  induction tos generalizing cfg with
  | nil => rfl
  | cons t rest ih =>
    simp only [dispatchRecipients]
    cases deliver t <;> simp [ih]

theorem dispatchRecipients_errs (deliver : String → Option String)
    (cfg : EmailConfig) (tos : List String) :
    (dispatchRecipients deliver cfg tos).2.1.length =
      (tos.filter (fun t => (deliver t).isSome)).length := by
  induction tos generalizing cfg with
  | nil => rfl
  | cons t rest ih =>
    simp only [dispatchRecipients]
    cases h : deliver t <;> simp [h, List.filter, ih]

theorem dispatchRecipients_headers (deliver : String → Option String)
    (cfg : EmailConfig) (tos : List String) :
    (dispatchRecipients deliver cfg tos).1.Headers = cfg.Headers := by
  induction tos generalizing cfg with
  | nil => rfl
  | cons t rest ih =>
    simp only [dispatchRecipients]
    cases deliver t <;> simp [ih]

/-- Complete accounting of one `Notify` run: when the header map is
allocated, the run completes, collects exactly the failing attempts as
errors, and attempts every recipient of every batch. -/
theorem Notify_spec (deliver : Data → String → Option String) (data : List Data) :
    ∀ en : EmailNotifier, en.Config.Headers.isSome →
      (Notify deliver en data).map (fun res => (res.2.1.length, res.2.2)) =
        some (countFailures deliver en.To data, data.length * en.To.length) := by
  induction data with
  | nil => intro en _; simp [Notify, countFailures]
  | cons d rest ih =>
    intro en hsome
    obtain ⟨hs, hh⟩ := Option.isSome_iff_exists.mp hsome
    simp only [Notify, hh]
    have hih := ih { en with Config :=
        (dispatchRecipients (deliver d)
          { en.Config with Headers := some (kvSet hs "Subject" (getSubject d)) } en.To).1 }
      (by simp [dispatchRecipients_headers])
    cases hrec : Notify deliver { en with Config :=
        (dispatchRecipients (deliver d)
          { en.Config with Headers := some (kvSet hs "Subject" (getSubject d)) } en.To).1 } rest with
    | none => rw [hrec] at hih; simp at hih
    | some trip =>
      rw [hrec] at hih
      obtain ⟨en', errs2, n2⟩ := trip
      simp only [Option.map_some] at hih
      injection hih with hih
      have h1 := congrArg Prod.fst hih
      have h2 := congrArg Prod.snd hih
      simp at h1 h2
      simp [hrec, List.length_append, dispatchRecipients_errs, dispatchRecipients_attempts,
        countFailures, Nat.succ_mul]
      omega

/-- Two clones of one base never alias: allocations are fresh, so writing the
destination of one clone is invisible through the other clone's reference and
through the base's reference. -/
theorem Clone_destination_isolated (s : ConfigStore) (b : Nat) (c : EmailConfig)
    (hb : readCfg s b = some c) (v : String)
    (s1 : ConfigStore) (r1 : Nat) (h1 : CloneRef s (some b) = (s1, some r1))
    (s2 : ConfigStore) (r2 : Nat) (h2 : CloneRef s1 (some b) = (s2, some r2)) :
    r1 ≠ r2 ∧ r1 ≠ b ∧ r2 ≠ b ∧
    readCfg (writeTo s2 r1 v) r2 = readCfg s2 r2 ∧
    readCfg (writeTo s2 r1 v) b = some c ∧
    readCfg (writeTo s2 r2 v) r1 = readCfg s2 r1 ∧
    readCfg (writeTo s2 r2 v) b = some c := by
  have hb' : s.cells[b]? = some c := hb
  have hblt : b < s.cells.length := (List.getElem?_eq_some.mp hb).1
  have e1 : CloneRef s (some b) =
      ({ cells := s.cells ++ [cloneFields c] }, some s.cells.length) := by
    simp [CloneRef, readCfg, allocCfg, hb']
  rw [e1] at h1
  injection h1 with hs1 hr1
  injection hr1 with hr1
  subst hs1
  subst hr1
  have hb1 : (s.cells ++ [cloneFields c])[b]? = some c := by
    rw [List.getElem?_append, if_pos hblt]
    exact hb'

  have e2 : CloneRef { cells := s.cells ++ [cloneFields c] } (some b) =
      ({ cells := (s.cells ++ [cloneFields c]) ++ [cloneFields c] },
        some (s.cells ++ [cloneFields c]).length) := by
    simp [CloneRef, readCfg, allocCfg, hb1]
  rw [e2] at h2
  injection h2 with hs2 hr2
  injection hr2 with hr2
  subst hs2
  subst hr2
  have hread1 : ((s.cells ++ [cloneFields c]) ++ [cloneFields c])[s.cells.length]? =
      some (cloneFields c) := by
    rw [List.getElem?_append, if_pos (by simp)]
    exact List.getElem?_concat_length s.cells (cloneFields c)
  have hread2 : ((s.cells ++ [cloneFields c]) ++ [cloneFields c])[(s.cells ++ [cloneFields c]).length]? =
      some (cloneFields c) :=
    List.getElem?_concat_length (s.cells ++ [cloneFields c]) (cloneFields c)
  refine ⟨by simp, by omega, by simp; omega, ?_, ?_, ?_, ?_⟩
  · simp only [writeTo, hread1, readCfg]
    rw [List.getElem?_set_ne (by simp)]
  · simp only [writeTo, hread1, readCfg]
    rw [List.getElem?_set_ne (by omega)]
    rw [List.getElem?_append, if_pos (by simp; omega), List.getElem?_append, if_pos hblt]
    exact hb
  · simp only [writeTo, hread2, readCfg]
    rw [List.getElem?_set_ne (by simp)]
  · simp only [writeTo, hread2, readCfg]
    rw [List.getElem?_set_ne (by simp; omega)]
    rw [List.getElem?_append, if_pos (by simp; omega), List.getElem?_append, if_pos hblt]
    exact hb

/-- A concrete base email config for the concrete instances below. -/
def baseCfg : EmailConfig :=
  { VSendResolved := false
    To := "orig@example.org"
    From := "nm@example.org"
    Hello := "localhost"
    Smarthost := "mail.example.org:25"
    AuthUsername := "user"
    AuthPassword := "pw"
    AuthSecret := "sec"
    AuthIdentity := "id"
    Headers := some [("X-Tag", "nm")]
    HTML := "<p>base body</p>"
    Text := "base text"
    RequireTLS := true
    TLSConfig := "tls-settings" }

/-- A concrete email receiver with two recipients over `baseCfg`. -/
def recEx : EmailReceiver := { To := ["a@x", "b@x"], emailConfig := some baseCfg }

/-- The notifier `NewEmailNotifier` builds from `recEx` with no options. -/
def enEx : EmailNotifier :=
  { To := ["a@x", "b@x"]
    Config := { cloneFields baseCfg with Headers := some [], HTML := defaultHTMLTemplate }
    Timeout := DefaultSendTimeout }

/-- One firing alert. -/
def alertFiring : Alert :=
  { status := "firing"
    labels := [("alertname", "HighCPU"), ("namespace", "ns1")]
    annots := [("summary", "cpu high")]
    startsAt := 100
    endsAt := 0
    generatorURL := "http://prom/graph" }

/-- A concrete batch: one firing alert under `namespace=ns1`,
`alertname=HighCPU`. -/
def batchEx : Data :=
  { receiver := "rcv"
    status := "firing"
    alerts := [alertFiring]
    groupLabels := [("alertname", "HighCPU")]
    commonLabels := [("namespace", "ns1"), ("alertname", "HighCPU")]
    commonAnnots := []
    externalURL := "http://nm.example.org" }

/-- A batch with no alerts whose common labels iterate as `b` then `a`. -/
def batchBA : Data :=
  { receiver := "", status := "", alerts := [], groupLabels := []
    commonLabels := [("b", "2"), ("a", "1")], commonAnnots := [], externalURL := "" }

/-- The same label map as `batchBA` iterating as `a` then `b`. -/
def batchAB : Data :=
  { receiver := "", status := "", alerts := [], groupLabels := []
    commonLabels := [("a", "1"), ("b", "2")], commonAnnots := [], externalURL := "" }

/-- A batch with no alerts and no common labels. -/
def batchEmpty : Data :=
  { receiver := "", status := "", alerts := [], groupLabels := []
    commonLabels := [], commonAnnots := [], externalURL := "" }

/-- A transport oracle that always succeeds. -/
def deliverOk : Data → String → Option String := fun _ _ => none

/-- A transport oracle failing exactly for recipient `b@x`. -/
def deliverFailB : Data → String → Option String :=
  fun _ t => if t == "b@x" then some "smtp: connection refused" else none

/-- Options supplying an email notification timeout of 7 seconds. -/
def optsEx : Options := { NotificationTimeout := some { Email := some 7 } }

/-- The notifier built from `recEx` under `optsEx`. -/
def enEx7 : EmailNotifier := { enEx with Timeout := 7 * nanosPerSecond }

/-- C1: refuted at a concrete input — the dispatch loop operates on the
notifier's stored shared config, not on per-recipient clones.  Before the
call the stored config has destination `""` and an empty header map; after
`Notify` on one batch with recipients `a@x, b@x` the stored config's
destination is the last recipient `b@x` and its header map holds the batch
subject, so the base config is mutated by the dispatch loop. -/
theorem Notify_mutates_shared_config :
    enEx.Config.To = "" ∧ enEx.Config.Headers = some [] ∧
    (Notify deliverOk enEx [batchEx]).map
        (fun res => (res.1.Config.To, res.1.Config.Headers)) =
      some ("b@x", some [("Subject", "[FIRING:1]  ns1/HighCPU")]) :=
  ⟨rfl, rfl, rfl⟩

/-- C2: refuted at a concrete input — `getSubject` renders the remaining
common labels in map-iteration order without sorting, so two iteration
orders of the same label map (a permutation pair) synthesize different
subject strings, and the keys are not lexicographically sorted. -/
theorem getSubject_order_dependent :
    batchBA.commonLabels.Perm batchAB.commonLabels ∧
    getSubject batchBA = " (b=2,a=1)" ∧
    getSubject batchAB = " (a=1,b=2)" ∧
    getSubject batchBA ≠ getSubject batchAB := by
  refine ⟨List.Perm.swap ("a", "1") ("b", "2") [], by decide, by decide, by decide⟩

/-- C3: with an allocated header map, `Notify` over a single batch makes
exactly one delivery attempt per recipient and returns exactly the failing
attempts as errors; over any batch list it makes `batches × recipients`
attempts and returns one error per failure — no failure short-circuits the
remaining recipients or batches. -/
theorem Notify_partial_failure (deliver : Data → String → Option String)
    (en : EmailNotifier) (hsome : en.Config.Headers.isSome) (d : Data)
    (data : List Data) :
    (Notify deliver en [d]).map (fun res => (res.2.1.length, res.2.2)) =
      some ((en.To.filter (fun t => (deliver d t).isSome)).length, en.To.length) ∧
    (Notify deliver en data).map (fun res => (res.2.1.length, res.2.2)) =
      some (countFailures deliver en.To data, data.length * en.To.length) := by
  constructor
  · have h := Notify_spec deliver [d] en hsome
    simpa [countFailures] using h
  · exact Notify_spec deliver data en hsome

/-- Witness for C3: two recipients, delivery failing for `b@x` only — one
error, two attempts. -/
theorem Notify_partial_failure_witness :
    (Notify deliverFailB enEx [batchEx]).map (fun res => (res.2.1.length, res.2.2)) =
      some (1, 2) :=
  (Notify_partial_failure deliverFailB enEx rfl batchEx [batchEx]).1

/-- C4: a batch whose common labels are exactly `namespace=ns1` and
`alertname=HighCPU` (in either iteration order) with one firing and no
resolved alert synthesizes exactly `"[FIRING:1]  ns1/HighCPU"`, with two
spaces after the bracket. -/
theorem getSubject_golden (d : Data)
    (hlab : d.commonLabels = [("namespace", "ns1"), ("alertname", "HighCPU")] ∨
            d.commonLabels = [("alertname", "HighCPU"), ("namespace", "ns1")])
    (hf : (firingOf d.alerts).length = 1)
    (hr : (resolvedOf d.alerts).length = 0) :
    getSubject d = "[FIRING:1]  ns1/HighCPU" := by
  rcases hlab with h | h <;> simp [getSubject, h, hf, hr, kvGet, trimSuffix] <;> decide

/-- Witness for C4 at the concrete batch `batchEx`. -/
theorem getSubject_golden_witness : getSubject batchEx = "[FIRING:1]  ns1/HighCPU" :=
  getSubject_golden batchEx (Or.inl rfl) rfl rfl

/-- Witness for C5 on a one-cell store: after two clones of cell 0 and a
destination write through the first clone's reference, the second clone's
cell and the base cell are unchanged. -/
theorem Clone_destination_isolated_witness :
    readCfg (writeTo { cells := [baseCfg, cloneFields baseCfg, cloneFields baseCfg] } 1 "new@x") 2 =
      readCfg { cells := [baseCfg, cloneFields baseCfg, cloneFields baseCfg] } 2 ∧
    readCfg (writeTo { cells := [baseCfg, cloneFields baseCfg, cloneFields baseCfg] } 1 "new@x") 0 =
      some baseCfg :=
  ⟨(Clone_destination_isolated { cells := [baseCfg] } 0 baseCfg rfl "new@x"
      { cells := [baseCfg, cloneFields baseCfg] } 1 rfl
      { cells := [baseCfg, cloneFields baseCfg, cloneFields baseCfg] } 2 rfl).2.2.2.1,
   (Clone_destination_isolated { cells := [baseCfg] } 0 baseCfg rfl "new@x"
      { cells := [baseCfg, cloneFields baseCfg] } 1 rfl
      { cells := [baseCfg, cloneFields baseCfg, cloneFields baseCfg] } 2 rfl).2.2.2.2.1⟩

/-- Totality of the dispatch loop when the header map is allocated. -/
theorem Notify_isSome (deliver : Data → String → Option String) (data : List Data)
    (en : EmailNotifier) (hsome : en.Config.Headers.isSome) :
    (Notify deliver en data).isSome = true := by
  have hspec := Notify_spec deliver data en hsome
  cases hN : Notify deliver en data with
  | none => rw [hN] at hspec; simp at hspec
  | some res => rfl

/-- C6: every notifier returned by `NewEmailNotifier` has an allocated
(non-nil) header map, and consequently the Subject-header write at the start
of each batch in `Notify` never dereferences an absent map: `Notify` never
reaches its nil-map panic case. -/
theorem NewEmailNotifier_headers_allocated (val : ReceiverVal) (opts : Option Options)
    (tOk : Bool) (en : EmailNotifier) (h : NewEmailNotifier val opts tOk = some en) :
    en.Config.Headers.isSome = true ∧
    ∀ deliver data, (Notify deliver en data).isSome = true := by
  obtain ⟨r, base, -, -, -, rfl⟩ := NewEmailNotifier_inv val opts tOk en h
  exact ⟨rfl, fun deliver data => Notify_isSome deliver data _ rfl⟩

/-- Witness for C6: the construction over `recEx` succeeds and yields an
allocated header map, and `Notify` completes on it. -/
theorem NewEmailNotifier_headers_allocated_witness :
    NewEmailNotifier (ReceiverVal.email recEx) none true = some enEx ∧
    enEx.Config.Headers.isSome = true ∧
    (Notify deliverOk enEx [batchEx]).isSome = true :=
  ⟨rfl,
   (NewEmailNotifier_headers_allocated (ReceiverVal.email recEx) none true enEx rfl).1,
   (NewEmailNotifier_headers_allocated (ReceiverVal.email recEx) none true enEx rfl).2
     deliverOk [batchEx]⟩

/-- C7: the stored per-delivery timeout is exactly 3 seconds when the options
chain carries no email timeout, and exactly `t` seconds when it carries the
value `t`. -/
theorem NewEmailNotifier_timeout (val : ReceiverVal) (opts : Option Options)
    (tOk : Bool) (en : EmailNotifier) (h : NewEmailNotifier val opts tOk = some en) :
    (optEmailTimeout opts = none → en.Timeout = 3 * nanosPerSecond) ∧
    (∀ t, optEmailTimeout opts = some t → en.Timeout = t * nanosPerSecond) := by
  obtain ⟨r, base, -, -, -, rfl⟩ := NewEmailNotifier_inv val opts tOk en h
  constructor
  · intro hnone
    simp [timeoutOf, hnone, DefaultSendTimeout]
  · intro t ht
    simp [timeoutOf, ht]

/-- Witness for C7: constructing under a 7-second option stores exactly
`7 * nanosPerSecond`. -/
theorem NewEmailNotifier_timeout_witness :
    NewEmailNotifier (ReceiverVal.email recEx) (some optsEx) true = some enEx7 ∧
    enEx7.Timeout = 7 * nanosPerSecond :=
  ⟨rfl, (NewEmailNotifier_timeout (ReceiverVal.email recEx) (some optsEx) true enEx7
      rfl).2 7 rfl⟩

/-- C8: a receiver value of the wrong shape makes `NewEmailNotifier` return
the absent notifier, and so does an email receiver whose base config is nil
(clone of nil is nil). -/
theorem NewEmailNotifier_absent (opts : Option Options) (tOk : Bool)
    (r : EmailReceiver) (hr : r.emailConfig = none) :
    NewEmailNotifier ReceiverVal.other opts tOk = none ∧
    NewEmailNotifier (ReceiverVal.email r) opts tOk = none := by
  refine ⟨rfl, ?_⟩
  simp [NewEmailNotifier, Clone, hr]

/-- Witness for C8 at concrete inputs. -/
theorem NewEmailNotifier_absent_witness :
    NewEmailNotifier ReceiverVal.other none true = none ∧
    NewEmailNotifier (ReceiverVal.email { To := ["a@x"], emailConfig := none }) none true = none :=
  ⟨(NewEmailNotifier_absent none true { To := ["a@x"], emailConfig := none } rfl).1,
   (NewEmailNotifier_absent none true { To := ["a@x"], emailConfig := none } rfl).2⟩

/-- C9: a batch with zero firing alerts, zero resolved alerts and an empty
common-label map synthesizes the empty subject. -/
theorem getSubject_empty_batch (d : Data)
    (hf : (firingOf d.alerts).length = 0)
    (hr : (resolvedOf d.alerts).length = 0)
    (hc : d.commonLabels = []) :
    getSubject d = "" := by
  simp [getSubject, hf, hr, hc, kvGet]

/-- Witness for C9 at the concrete empty batch. -/
theorem getSubject_empty_batch_witness : getSubject batchEmpty = "" :=
  getSubject_empty_batch batchEmpty rfl rfl rfl

/-- C10: `Clone` copies the base's HTML field verbatim, yet every notifier
the factory returns carries the fixed default template reference as its HTML
body — the factory overwrites the cloned HTML unconditionally, so the base's
HTML is never the one used for delivery. -/
theorem factory_overwrites_HTML (ec : EmailConfig) (val : ReceiverVal)
    (opts : Option Options) (tOk : Bool) (en : EmailNotifier)
    (h : NewEmailNotifier val opts tOk = some en) :
    (cloneFields ec).HTML = ec.HTML ∧ en.Config.HTML = defaultHTMLTemplate := by
  obtain ⟨r, base, -, -, -, rfl⟩ := NewEmailNotifier_inv val opts tOk en h
  exact ⟨rfl, rfl⟩

/-- Witness for C10: the clone of `baseCfg` keeps its HTML, while the
constructed notifier carries the default template reference. -/
theorem factory_overwrites_HTML_witness :
    (cloneFields baseCfg).HTML = baseCfg.HTML ∧
    enEx.Config.HTML = defaultHTMLTemplate :=
  factory_overwrites_HTML baseCfg (ReceiverVal.email recEx) none true enEx rfl

end NotifyEmail
